import Mathlib

/-!
Verification of the risk-based motor-insurance premium system.

Shallow embedding of the Python sources (`premium_rules.py`,
`renewal_premium_rules.py`, `risk_engine.py`, with the `app.py` /
`app_flask.py` callers and the spec as context).

Modelling conventions:
* Python floats are modelled by exact rationals (`ℚ`); all constants of the
  source are exactly representable in decimal.
* `round(x, n)` is modelled by `pyRound n x`, decimal round-half-to-even,
  which is Python's rounding rule.
* Python dictionaries (the result records) are association lists
  `List (String × PyVal)` in the key-insertion order of the source; updates
  of an existing key in Python preserve that order.
* The two pretrained model artifacts are opaque scoring functions; their
  outputs (the EBM probability and the NGBoost positive-class parameter
  `p1`) enter `calculate_risk` as explicit oracle parameters, and
  "the secondary model is not called" is expressed as independence of the
  result from the `p1` oracle.
-/

/-- A Python scalar value as it occurs in the result records: a number,
a string, a boolean, `None`, or a nested all-numeric dictionary
(the premium breakdown). -/
inductive PyVal where
  | num : ℚ → PyVal
  | str : String → PyVal
  | bool : Bool → PyVal
  | none : PyVal
  | dict : List (String × ℚ) → PyVal
deriving DecidableEq, Repr

/-- Python's `round(x, n)`: round to `n` decimal places, ties to even. -/
def pyRound (n : ℕ) (x : ℚ) : ℚ :=
  let y := x * (10 : ℚ) ^ n
  let f : ℤ := ⌊y⌋
  let r : ℚ := y - (f : ℚ)
  let k : ℤ :=
    if r < 1/2 then f
    else if 1/2 < r then f + 1
    else if f % 2 = 0 then f else f + 1
  (k : ℚ) / (10 : ℚ) ^ n

/-- Evaluation scheme for `pyRound` at concrete arguments: supply the floor
`f` of `x * 10 ^ n` and the value of the rounding case split. -/
theorem pyRound_eval {n : ℕ} {x q : ℚ} {f : ℤ}
    (hf : ⌊x * (10 : ℚ) ^ n⌋ = f)
    (hq : ((if x * (10 : ℚ) ^ n - (f : ℚ) < 1/2 then f
            else if 1/2 < x * (10 : ℚ) ^ n - (f : ℚ) then f + 1
            else if f % 2 = 0 then f else f + 1 : ℤ) : ℚ) / (10 : ℚ) ^ n = q) :
    pyRound n x = q := by
  simp only [pyRound]
  rw [hf]
  exact hq

/-- The function `pyRound` is the identity on rationals already exact at `n` decimals. -/
theorem pyRound_exact {n : ℕ} {x : ℚ} {a : ℤ}
    (h : x * (10 : ℚ) ^ n = (a : ℚ)) : pyRound n x = x := by
  have hf : ⌊x * (10 : ℚ) ^ n⌋ = a := by rw [h]; exact Int.floor_intCast a
  refine pyRound_eval hf ?_
  rw [h]
  have h2 : (a : ℚ) - (a : ℚ) = 0 := by ring
  rw [h2, if_pos (by norm_num)]
  have hne : ((10 : ℚ) ^ n) ≠ 0 := by positivity
  field_simp
  linarith [h]

namespace premium_rules

/-- Embedding of `premium_rules.get_risk_loading_percent` (premium_rules.py lines 38-46). -/
def get_risk_loading_percent (risk_percent : ℚ) : ℚ :=
  if risk_percent < 15 then 0
  else if risk_percent < 25 then 0.10
  else if risk_percent < 40 then 0.25
  else 0.50

/-- The net premium of `premium_rules.calculate_final_premium`
(premium_rules.py line 73): clamped at zero by `max`. -/
def net_premium (base_premium risk_percent ncb_percentage other_discount : ℚ) : ℚ :=
  let loading_pct := get_risk_loading_percent risk_percent
  let loading_amount := base_premium * loading_pct
  let ncb_discount := base_premium * (ncb_percentage / 100)
  let total_discount := ncb_discount + other_discount
  max ((base_premium + loading_amount) - total_discount) 0

/-- Embedding of `premium_rules.calculate_final_premium` (premium_rules.py lines 52-95).
The Python defaults are `admin_fee_rate=0.0291`, `policy_fee=200.0`,
`vat_rate=0.18`; they are passed explicitly here. -/
def calculate_final_premium (base_premium risk_percent ncb_percentage other_discount
    admin_fee_rate policy_fee vat_rate : ℚ) : List (String × ℚ) :=
  let loading_pct := get_risk_loading_percent risk_percent
  let loading_amount := base_premium * loading_pct
  let ncb_discount := base_premium * (ncb_percentage / 100)
  let np := net_premium base_premium risk_percent ncb_percentage other_discount
  let admin_fee := np * admin_fee_rate
  let premium_before_vat := np + admin_fee + policy_fee
  let vat_amount := premium_before_vat * vat_rate
  let total_payable := premium_before_vat + vat_amount
  [("base_premium", pyRound 2 base_premium),
   ("risk_percent", pyRound 2 risk_percent),
   ("risk_loading_percent", pyRound 2 (loading_pct * 100)),
   ("risk_loading_amount", pyRound 2 loading_amount),
   ("ncb_percentage", pyRound 2 ncb_percentage),
   ("ncb_discount", pyRound 2 ncb_discount),
   ("net_premium", pyRound 2 np),
   ("admin_fee", pyRound 2 admin_fee),
   ("policy_fee", pyRound 2 policy_fee),
   ("vat_amount", pyRound 2 vat_amount),
   ("total_payable", pyRound 2 total_payable)]

end premium_rules

namespace renewal_premium_rules

/-- Embedding of `renewal_premium_rules.get_rebate_rate` (renewal_premium_rules.py
lines 3-15): closed integer-bounded bands. -/
def get_rebate_rate (sum_insured : ℚ) : ℚ :=
  if 3100000 ≤ sum_insured ∧ sum_insured ≤ 4999999 then 0.10
  else if 5000000 ≤ sum_insured ∧ sum_insured ≤ 6999999 then 0.125
  else if 7000000 ≤ sum_insured ∧ sum_insured ≤ 7999999 then 0.15
  else if 8000000 ≤ sum_insured then 0.20
  else 0.0

/-- Embedding of `renewal_premium_rules.calculate_base_premium` with the default
`base_rate = 0.028`. -/
def calculate_base_premium (sum_insured : ℚ) : ℚ :=
  sum_insured * 0.028

/-- Embedding of `renewal_premium_rules.risk_loading` (lines 25-38). -/
def risk_loading (expected_claim : ℚ) : ℚ :=
  if expected_claim < 50000 then 0
  else if expected_claim < 200000 then 0.05
  else if expected_claim < 500000 then 0.10
  else if expected_claim < 1000000 then 0.20
  else 0.30

/-- The net premium of `renewal_premium_rules.calculate_final_premium`
(renewal_premium_rules.py line 56): note there is NO clamp at zero. -/
def net_premium (sum_insured expected_claim ncb_rate : ℚ) : ℚ :=
  let base_premium := calculate_base_premium sum_insured
  let rebate := base_premium * get_rebate_rate sum_insured
  let loading := base_premium * risk_loading expected_claim
  let ncb_discount := base_premium * ncb_rate
  base_premium - rebate - ncb_discount + loading

/-- Embedding of `renewal_premium_rules.calculate_final_premium` (lines 41-73). -/
def calculate_final_premium (sum_insured expected_claim ncb_rate : ℚ) :
    List (String × ℚ) :=
  let base_premium := calculate_base_premium sum_insured
  let rebate := base_premium * get_rebate_rate sum_insured
  let loading := base_premium * risk_loading expected_claim
  let ncb_discount := base_premium * ncb_rate
  let np := net_premium sum_insured expected_claim ncb_rate
  let admin_fee := np * 0.0291
  let policy_fee : ℚ := 200
  let vat := 0.18 * (np + admin_fee + policy_fee)
  let total_premium := np + admin_fee + policy_fee + vat
  [("base_premium", pyRound 2 base_premium),
   ("rebate", pyRound 2 rebate),
   ("risk_loading", pyRound 2 loading),
   ("ncb_discount", pyRound 2 ncb_discount),
   ("admin_fee", pyRound 2 admin_fee),
   ("policy_fee", policy_fee),
   ("vat", pyRound 2 vat),
   ("total_premium", pyRound 2 total_premium)]

end renewal_premium_rules

namespace risk_engine

/-- The constant `EBM_ESCALATE_THRESHOLD = 0.155` (risk_engine.py line 23). -/
def EBM_ESCALATE_THRESHOLD : ℚ := 0.155

/-- The constant `EBM_HIGH_THRESHOLD = 0.20` (risk_engine.py line 24). -/
def EBM_HIGH_THRESHOLD : ℚ := 0.20

/-- Embedding of `risk_engine.make_driver_age_band` (risk_engine.py lines 51-62). -/
def make_driver_age_band (age : ℚ) : String :=
  if age < 25 then "18_24"
  else if age < 35 then "25_34"
  else if age < 45 then "35_44"
  else if age < 60 then "45_59"
  else "60+"

/-- Embedding of `risk_engine.make_vehicle_age_band` (risk_engine.py lines 65-74). -/
def make_vehicle_age_band (v_age : ℚ) : String :=
  if v_age ≤ 3 then "0_3"
  else if v_age ≤ 7 then "4_7"
  else if v_age ≤ 12 then "8_12"
  else "13+"

/-- The three-way label rule of risk_engine.py lines 130-135 as a function
of a probability: HIGH at or above `EBM_HIGH_THRESHOLD`, MEDIUM at or above
`EBM_ESCALATE_THRESHOLD`, LOW below it. -/
def riskLabelOf (p : ℚ) : String :=
  if EBM_HIGH_THRESHOLD ≤ p then "HIGH"
  else if EBM_ESCALATE_THRESHOLD ≤ p then "MEDIUM"
  else "LOW"

/-- The policy record fields `calculate_risk` itself reads. `Option.none`
models an absent dictionary key (the remaining fields only feed the opaque
models and are absorbed by the oracle parameters). -/
structure Policy where
  driver_age : Option ℚ
  vehicle_age_years : Option ℚ
  base_premium : Option ℚ
  ncb_percentage : Option ℚ
  other_discount : Option ℚ
deriving DecidableEq, Repr

/-- The success-case result dictionary of `calculate_risk`
(risk_engine.py lines 140-196), in the key order of the skeleton dict of
lines 140-156 (Python key updates keep insertion order). `ebmProb` and
`ngbP1` are the oracle outputs of the two opaque models. The code stores
`ngboost_uncertainty = round(sqrt(p1*(1-p1)), 4)`; square roots leave ℚ, so
the model records the radicand `p1*(1-p1)` there — the claims about this
field concern only whether it is `None`. -/
def mkRiskResult (ebmProb ngbP1 age vAge base_premium ncb other_discount : ℚ) :
    List (String × PyVal) :=
  let escalate : Bool := EBM_ESCALATE_THRESHOLD ≤ ebmProb
  let ngbProb : Option ℚ := if escalate then some (pyRound 4 ngbP1) else Option.none
  let pricing_prob : ℚ :=
    match ngbProb with
    | some q => q
    | Option.none => pyRound 4 ebmProb
  let pricing_model : String :=
    match ngbProb with
    | some _ => "NGBoost"
    | Option.none => "EBM"
  let risk_percent_for_pricing := pricing_prob * 100
  let breakdown := premium_rules.calculate_final_premium base_premium
    risk_percent_for_pricing ncb other_discount 0.0291 200 0.18
  [("ebm_risk_probability", PyVal.num (pyRound 4 ebmProb)),
   ("risk_label", PyVal.str (riskLabelOf ebmProb)),
   ("escalate_to_ngboost", PyVal.bool escalate),
   ("ngboost_risk_probability",
     match ngbProb with
     | some q => PyVal.num q
     | Option.none => PyVal.none),
   ("ngboost_uncertainty",
     if escalate then PyVal.num (ngbP1 * (1 - ngbP1)) else PyVal.none),
   ("driver_age_band", PyVal.str (make_driver_age_band age)),
   ("vehicle_age_band", PyVal.str (make_vehicle_age_band vAge)),
   ("pricing_model_used", PyVal.str pricing_model),
   ("pricing_probability", PyVal.num (pyRound 4 pricing_prob)),
   ("risk_percent_for_pricing", PyVal.num (pyRound 2 risk_percent_for_pricing)),
   ("premium_breakdown", PyVal.dict breakdown)]

/-- Embedding of `risk_engine.calculate_risk` (risk_engine.py lines 113-197).
`ebmProb` is the oracle output of `ebm_model.predict_proba` and `ngbP1` the
NGBoost positive-class parameter `p1`; `ebmFeaturesPresent` states whether
every trained EBM feature column is present (`prepare_for_ebm`, lines
97-101). Failures raise `ValueError`, modelled by `Except.error` with the
message of the `raise` (the EBM-feature message elides the f-string list of
missing columns). -/
def calculate_risk (ebmProb ngbP1 : ℚ) (ebmFeaturesPresent : Bool)
    (policy : Policy) : Except String (List (String × PyVal)) :=
  match policy.driver_age with
  | Option.none => Except.error "Missing required field: driver_age"
  | some age =>
    match policy.vehicle_age_years with
    | Option.none => Except.error "Missing required field: vehicle_age_years"
    | some vAge =>
      if ebmFeaturesPresent then
        Except.ok (mkRiskResult ebmProb ngbP1 age vAge
          (policy.base_premium.getD 45000)
          (policy.ncb_percentage.getD 0)
          (policy.other_discount.getD 0))
      else Except.error "Missing required EBM features"

/-- The field of key `k` in a `calculate_risk` result, `Option.none` when
the evaluation failed or the key is absent. -/
def resField (k : String) (r : Except String (List (String × PyVal))) :
    Option PyVal :=
  match r with
  | Except.ok d => d.lookup k
  | Except.error _ => Option.none

/-- The key list of a `calculate_risk` result dictionary (empty on error). -/
def resultKeys (r : Except String (List (String × PyVal))) : List String :=
  match r with
  | Except.ok d => d.map Prod.fst
  | Except.error _ => []

/-- The sample policy of `app.py` / `app_flask.py` default values restricted
to the fields `calculate_risk` reads: driver_age 35, vehicle_age_years 8,
base_premium 45000, ncb_percentage 0, other_discount 0. -/
def examplePolicy : Policy :=
  { driver_age := some 35, vehicle_age_years := some 8,
    base_premium := some 45000, ncb_percentage := some 0,
    other_discount := some 0 }

end risk_engine

namespace blacklist

/-!
`is_blacklisted` is imported by `app.py` and `app_flask.py` from
`risk_engine`, but no definition of it appears in the sources; only its
callers and the spec describe it. The definitions in this namespace are
therefore modelled from the spec. Strings are modelled as lists of
character code points (`List ℕ`).
-/

/-- Lower-casing of one ASCII code point. -/
def lowerChar (c : ℕ) : ℕ := if 65 ≤ c ∧ c ≤ 90 then c + 32 else c

/-- Whitespace as Python's `str.strip` removes it (space, tab, LF, CR). -/
def isSpaceChar (c : ℕ) : Bool := c = 32 || c = 9 || c = 10 || c = 13

/-- Drop leading whitespace. -/
def ltrim (s : List ℕ) : List ℕ := s.dropWhile isSpaceChar

/-- Drop trailing whitespace. -/
def rtrim (s : List ℕ) : List ℕ := (s.reverse.dropWhile isSpaceChar).reverse

/-- Python's `str.strip`: drop whitespace at both ends. -/
def trim (s : List ℕ) : List ℕ := rtrim (ltrim s)

/-- The lower-cased, whitespace-trimmed form of an id. -/
def normalizeId (s : List ℕ) : List ℕ := (trim s).map lowerChar

/-- Modelled from the spec: the process-wide blacklist, "a set of customer
identifiers (case-insensitive, whitespace-trimmed)", held in normalized
form. The single member is the spec's example id "blk001". -/
def BLACKLIST : List (List ℕ) := [[98, 108, 107, 48, 48, 49]]

/-- Modelled from the spec: the Blacklist Gate contract
"is_blacklisted(customer_id) -> bool. Case-insensitive, trims whitespace,
empty/absent id is never blacklisted." Membership of the normalized id in
the normalized blacklist, with the empty id never blacklisted. -/
def is_blacklisted (s : List ℕ) : Bool :=
  !(normalizeId s).isEmpty && BLACKLIST.contains (normalizeId s)

end blacklist

/-!  ## Helper lemmas about the risk engine embedding -/

namespace risk_engine

/-- The key list of the result dictionary does not depend on any input. -/
theorem mkRiskResult_keys (e n a v b c o : ℚ) :
    (mkRiskResult e n a v b c o).map Prod.fst =
      ["ebm_risk_probability", "risk_label", "escalate_to_ngboost",
       "ngboost_risk_probability", "ngboost_uncertainty",
       "driver_age_band", "vehicle_age_band", "pricing_model_used",
       "pricing_probability", "risk_percent_for_pricing",
       "premium_breakdown"] := rfl

/-- Unfolding of the result dictionary in the escalated case. -/
theorem mkRiskResult_of_escalate {e : ℚ} (n a v b c o : ℚ)
    (h : EBM_ESCALATE_THRESHOLD ≤ e) :
    mkRiskResult e n a v b c o =
    [("ebm_risk_probability", PyVal.num (pyRound 4 e)),
     ("risk_label", PyVal.str (riskLabelOf e)),
     ("escalate_to_ngboost", PyVal.bool true),
     ("ngboost_risk_probability", PyVal.num (pyRound 4 n)),
     ("ngboost_uncertainty", PyVal.num (n * (1 - n))),
     ("driver_age_band", PyVal.str (make_driver_age_band a)),
     ("vehicle_age_band", PyVal.str (make_vehicle_age_band v)),
     ("pricing_model_used", PyVal.str "NGBoost"),
     ("pricing_probability", PyVal.num (pyRound 4 (pyRound 4 n))),
     ("risk_percent_for_pricing", PyVal.num (pyRound 2 (pyRound 4 n * 100))),
     ("premium_breakdown", PyVal.dict (premium_rules.calculate_final_premium b
        (pyRound 4 n * 100) c o 0.0291 200 0.18))] := by
  simp [mkRiskResult, h]

/-- Unfolding of the result dictionary in the non-escalated case. -/
theorem mkRiskResult_of_no_escalate {e : ℚ} (n a v b c o : ℚ)
    (h : e < EBM_ESCALATE_THRESHOLD) :
    mkRiskResult e n a v b c o =
    [("ebm_risk_probability", PyVal.num (pyRound 4 e)),
     ("risk_label", PyVal.str (riskLabelOf e)),
     ("escalate_to_ngboost", PyVal.bool false),
     ("ngboost_risk_probability", PyVal.none),
     ("ngboost_uncertainty", PyVal.none),
     ("driver_age_band", PyVal.str (make_driver_age_band a)),
     ("vehicle_age_band", PyVal.str (make_vehicle_age_band v)),
     ("pricing_model_used", PyVal.str "EBM"),
     ("pricing_probability", PyVal.num (pyRound 4 (pyRound 4 e))),
     ("risk_percent_for_pricing", PyVal.num (pyRound 2 (pyRound 4 e * 100))),
     ("premium_breakdown", PyVal.dict (premium_rules.calculate_final_premium b
        (pyRound 4 e * 100) c o 0.0291 200 0.18))] := by
  simp [mkRiskResult, not_le.mpr h]

/-- Inversion: a successful `calculate_risk` run determines its result
dictionary as `mkRiskResult` of the policy fields. -/
theorem calculate_risk_ok_inv {e n : ℚ} {fp : Bool} {p : Policy}
    {d : List (String × PyVal)}
    (h : calculate_risk e n fp p = Except.ok d) :
    ∃ age vAge, p.driver_age = some age ∧ p.vehicle_age_years = some vAge ∧
      fp = true ∧
      d = mkRiskResult e n age vAge (p.base_premium.getD 45000)
            (p.ncb_percentage.getD 0) (p.other_discount.getD 0) := by
  cases hda : p.driver_age with
  | none => rw [calculate_risk, hda] at h; cases h
  | some age =>
    cases hva : p.vehicle_age_years with
    | none => rw [calculate_risk, hda, hva] at h; cases h
    | some vAge =>
      cases fp with
      | false => rw [calculate_risk, hda, hva] at h; simp at h
      | true =>
        rw [calculate_risk, hda, hva] at h
        simp at h
        exact ⟨age, vAge, rfl, rfl, rfl, h.symm⟩

end risk_engine

/-!  ## Helper lemmas about id normalization -/

namespace blacklist

/-- Lower-casing is idempotent. -/
theorem lowerChar_idem (c : ℕ) : lowerChar (lowerChar c) = lowerChar c := by
  simp only [lowerChar]
  split_ifs <;> omega

/-- Lower-casing neither creates nor destroys whitespace. -/
theorem isSpaceChar_lowerChar (c : ℕ) :
    isSpaceChar (lowerChar c) = isSpaceChar c := by
  simp only [lowerChar, isSpaceChar]
  split_ifs with h
  · have e1 : decide (c + 32 = 32) = false := decide_eq_false (by omega)
    have e2 : decide (c + 32 = 9) = false := decide_eq_false (by omega)
    have e3 : decide (c + 32 = 10) = false := decide_eq_false (by omega)
    have e4 : decide (c + 32 = 13) = false := decide_eq_false (by omega)
    have f1 : decide (c = 32) = false := decide_eq_false (by omega)
    have f2 : decide (c = 9) = false := decide_eq_false (by omega)
    have f3 : decide (c = 10) = false := decide_eq_false (by omega)
    have f4 : decide (c = 13) = false := decide_eq_false (by omega)
    rw [e1, e2, e3, e4, f1, f2, f3, f4]
  · rfl

/-- The function `dropWhile` commutes with a map that preserves the predicate. -/
theorem dropWhile_map_of_pres {f : ℕ → ℕ} {p : ℕ → Bool}
    (hp : ∀ c, p (f c) = p c) (l : List ℕ) :
    (l.map f).dropWhile p = (l.dropWhile p).map f := by
  induction l with
  | nil => rfl
  | cons a t ih =>
    simp only [List.map_cons, List.dropWhile_cons, hp a]
    cases hpa : p a with
    | true => simpa [hpa] using ih
    | false => simp [hpa]

/-- The function `dropWhile` is idempotent. -/
theorem dropWhile_idem (p : ℕ → Bool) (l : List ℕ) :
    (l.dropWhile p).dropWhile p = l.dropWhile p := by
  induction l with
  | nil => rfl
  | cons a t ih =>
    by_cases hpa : p a = true
    · simp [List.dropWhile_cons, hpa, ih]
    · simp [List.dropWhile_cons, hpa]

/-- The function `dropWhile` keeps a suffix: the dropped part can be restored. -/
theorem exists_append_dropWhile (p : ℕ → Bool) (l : List ℕ) :
    ∃ t, l = t ++ l.dropWhile p := by
  induction l with
  | nil => exact ⟨[], rfl⟩
  | cons a t ih =>
    by_cases hpa : p a = true
    · obtain ⟨u, hu⟩ := ih
      exact ⟨a :: u, by simpa [List.dropWhile_cons, hpa] using congrArg (a :: ·) hu⟩
    · exact ⟨[], by simp [List.dropWhile_cons, hpa]⟩

/-- The function `dropWhile` never lengthens a list. -/
theorem length_dropWhile_le (p : ℕ → Bool) (l : List ℕ) :
    (l.dropWhile p).length ≤ l.length := by
  induction l with
  | nil => simp
  | cons a t ih =>
    rw [List.dropWhile_cons]
    by_cases hpa : p a = true
    · simp only [hpa, if_true, List.length_cons]
      omega
    · simp [hpa]

/-- If `dropWhile` fixes a concatenation, it fixes the left part. -/
theorem dropWhile_eq_self_left {p : ℕ → Bool} {a b : List ℕ}
    (h : (a ++ b).dropWhile p = a ++ b) : a.dropWhile p = a := by
  induction a with
  | nil => rfl
  | cons c t ih =>
    rw [List.cons_append, List.dropWhile_cons] at h
    by_cases hpc : p c = true
    · exfalso
      rw [if_pos hpc] at h
      have hlen := congrArg List.length h
      rw [List.length_cons] at hlen
      have hle := length_dropWhile_le p (t ++ b)
      omega
    · simp [List.dropWhile_cons, hpc]

/-- The function `ltrim` is idempotent. -/
theorem ltrim_idem (l : List ℕ) : ltrim (ltrim l) = ltrim l :=
  dropWhile_idem isSpaceChar l

/-- The function `rtrim` is idempotent. -/
theorem rtrim_idem (l : List ℕ) : rtrim (rtrim l) = rtrim l := by
  simp only [rtrim, List.reverse_reverse]
  rw [dropWhile_idem]

/-- The function `ltrim` fixes the result of `rtrim` of an `ltrim`-fixed list. -/
theorem ltrim_rtrim {l : List ℕ} (h : ltrim l = l) :
    ltrim (rtrim l) = rtrim l := by
  obtain ⟨t, ht⟩ := exists_append_dropWhile isSpaceChar l.reverse
  have hl : (l.reverse.dropWhile isSpaceChar).reverse ++ t.reverse = l := by
    rw [← List.reverse_append, ← ht, List.reverse_reverse]
  unfold ltrim at h ⊢
  unfold rtrim
  apply dropWhile_eq_self_left (b := t.reverse)
  rw [hl]
  exact h

/-- The function `trim` is idempotent. -/
theorem trim_idem (l : List ℕ) : trim (trim l) = trim l := by
  unfold trim
  rw [ltrim_rtrim (ltrim_idem l), rtrim_idem]

/-- The function `trim` commutes with lower-casing. -/
theorem trim_map_lowerChar (l : List ℕ) :
    trim (l.map lowerChar) = (trim l).map lowerChar := by
  unfold trim rtrim ltrim
  rw [dropWhile_map_of_pres isSpaceChar_lowerChar, ← List.map_reverse,
    dropWhile_map_of_pres isSpaceChar_lowerChar, ← List.map_reverse]

/-- Normalization is idempotent. -/
theorem normalizeId_idem (s : List ℕ) :
    normalizeId (normalizeId s) = normalizeId s := by
  unfold normalizeId
  rw [trim_map_lowerChar, trim_idem, List.map_map]
  exact List.map_congr_left fun c _ => lowerChar_idem c

end blacklist

/-!  ## Claim theorems -/

/-- C3 (amended): in `premium_rules.calculate_final_premium` the net premium
before fees is clamped at 0 and never negative, for every base premium, risk
percent, NCB percentage and other discount; the renewal variant
(`renewal_premium_rules.calculate_final_premium`) does not clamp, and for
sum insured 1000000, expected claim 0 and NCB input 70 its net premium is
negative. -/
theorem c3_net_premium_clamp :
    (∀ b r c o : ℚ, 0 ≤ premium_rules.net_premium b r c o) ∧
    renewal_premium_rules.net_premium 1000000 0 70 < 0 := by
  constructor
  · intro b r c o
    simp only [premium_rules.net_premium]
    exact le_max_right _ 0
  · norm_num [renewal_premium_rules.net_premium,
      renewal_premium_rules.calculate_base_premium,
      renewal_premium_rules.get_rebate_rate, renewal_premium_rules.risk_loading]

/-- C3 counterexample: the renewal-variant net premium at sum insured
1000000, expected claim 0 and NCB input 70 is -1932000, strictly negative,
so it is not clamped at 0. -/
theorem c3_counterexample :
    renewal_premium_rules.net_premium 1000000 0 70 = -1932000 := by
  norm_num [renewal_premium_rules.net_premium,
    renewal_premium_rules.calculate_base_premium,
    renewal_premium_rules.get_rebate_rate, renewal_premium_rules.risk_loading]

/-- C8: for every policy record lacking `driver_age`, `calculate_risk`
fails with the missing-required-field error, for every value of both model
oracles — so neither the EBM nor the NGBoost scorer influences (or is
needed for) the outcome. -/
theorem c8_missing_driver_age :
    ∀ (e n : ℚ) (fp : Bool) (p : risk_engine.Policy),
      p.driver_age = Option.none →
      risk_engine.calculate_risk e n fp p =
        Except.error "Missing required field: driver_age" := by
  intro e n fp p h
  rw [risk_engine.calculate_risk, h]

/-- C8 witness: a concrete policy with no `driver_age` field is rejected
with the missing-required-field error. -/
theorem c8_missing_driver_age_witness :
    (risk_engine.Policy.mk Option.none (some 8) Option.none Option.none
        Option.none).driver_age = Option.none ∧
    risk_engine.calculate_risk 0 0 true
        (risk_engine.Policy.mk Option.none (some 8) Option.none Option.none
          Option.none) =
      Except.error "Missing required field: driver_age" :=
  ⟨rfl, c8_missing_driver_age 0 0 true _ rfl⟩

/-- C9 (spec-modelled): `is_blacklisted` agrees on every id and its
lower-cased whitespace-trimmed form, the empty id is never blacklisted, and
the spec's example pair " blk001 " / "BLK001" agree. -/
theorem c9_blacklist_normalization :
    (∀ s : List ℕ, blacklist.is_blacklisted s =
        blacklist.is_blacklisted (blacklist.normalizeId s)) ∧
    blacklist.is_blacklisted [] = false ∧
    blacklist.is_blacklisted [32, 98, 108, 107, 48, 48, 49, 32] =
      blacklist.is_blacklisted [66, 76, 75, 48, 48, 49] := by
  refine ⟨fun s => ?_, by decide, by decide⟩
  unfold blacklist.is_blacklisted
  rw [blacklist.normalizeId_idem]

/-- C10: the renewal rebate schedule leaves gaps between adjacent bands:
every sum insured strictly between 4999999 and 5000000, between 6999999 and
7000000, or between 7999999 and 8000000 gets rebate rate 0, while the band
endpoints themselves get the adjacent bands' rates. -/
theorem c10_rebate_gaps :
    (∀ s : ℚ, 4999999 < s → s < 5000000 →
      renewal_premium_rules.get_rebate_rate s = 0) ∧
    (∀ s : ℚ, 6999999 < s → s < 7000000 →
      renewal_premium_rules.get_rebate_rate s = 0) ∧
    (∀ s : ℚ, 7999999 < s → s < 8000000 →
      renewal_premium_rules.get_rebate_rate s = 0) ∧
    renewal_premium_rules.get_rebate_rate 4999999 = 0.10 ∧
    renewal_premium_rules.get_rebate_rate 5000000 = 0.125 ∧
    renewal_premium_rules.get_rebate_rate 6999999 = 0.125 ∧
    renewal_premium_rules.get_rebate_rate 7000000 = 0.15 ∧
    renewal_premium_rules.get_rebate_rate 7999999 = 0.15 ∧
    renewal_premium_rules.get_rebate_rate 8000000 = 0.20 := by
  refine ⟨fun s h1 h2 => ?_, fun s h1 h2 => ?_, fun s h1 h2 => ?_,
    ?_, ?_, ?_, ?_, ?_, ?_⟩
  · unfold renewal_premium_rules.get_rebate_rate
    rw [if_neg (by rintro ⟨-, hc⟩; linarith),
      if_neg (by rintro ⟨hc, -⟩; linarith),
      if_neg (by rintro ⟨hc, -⟩; linarith),
      if_neg (by intro hc; linarith)]
    norm_num
  · unfold renewal_premium_rules.get_rebate_rate
    rw [if_neg (by rintro ⟨-, hc⟩; linarith),
      if_neg (by rintro ⟨-, hc⟩; linarith),
      if_neg (by rintro ⟨hc, -⟩; linarith),
      if_neg (by intro hc; linarith)]
    norm_num
  · unfold renewal_premium_rules.get_rebate_rate
    rw [if_neg (by rintro ⟨-, hc⟩; linarith),
      if_neg (by rintro ⟨-, hc⟩; linarith),
      if_neg (by rintro ⟨-, hc⟩; linarith),
      if_neg (by intro hc; linarith)]
    norm_num
  · norm_num [renewal_premium_rules.get_rebate_rate]
  · norm_num [renewal_premium_rules.get_rebate_rate]
  · norm_num [renewal_premium_rules.get_rebate_rate]
  · norm_num [renewal_premium_rules.get_rebate_rate]
  · norm_num [renewal_premium_rules.get_rebate_rate]
  · norm_num [renewal_premium_rules.get_rebate_rate]

/-- C10 witness: the concrete sum insured 4999999.5 lies strictly between
the first two band boundaries and receives rebate rate 0. -/
theorem c10_rebate_gaps_witness :
    ((4999999 : ℚ) < 9999999 / 2 ∧ (9999999 : ℚ) / 2 < 5000000) ∧
    renewal_premium_rules.get_rebate_rate (9999999 / 2) = 0 :=
  ⟨⟨by norm_num, by norm_num⟩,
    c10_rebate_gaps.1 (9999999 / 2) (by norm_num) (by norm_num)⟩

/-- C7: on [18, 90) the driver age bands are a contiguous, non-overlapping
partition (each band label is returned exactly on its interval), and each
boundary age (25, 35, 45, 60) falls into the higher of its two adjacent
bands. -/
theorem c7_driver_age_band_partition :
    (∀ a : ℚ, 18 ≤ a → a < 90 →
      ((risk_engine.make_driver_age_band a = "18_24" ↔ a < 25) ∧
       (risk_engine.make_driver_age_band a = "25_34" ↔ 25 ≤ a ∧ a < 35) ∧
       (risk_engine.make_driver_age_band a = "35_44" ↔ 35 ≤ a ∧ a < 45) ∧
       (risk_engine.make_driver_age_band a = "45_59" ↔ 45 ≤ a ∧ a < 60) ∧
       (risk_engine.make_driver_age_band a = "60+" ↔ 60 ≤ a))) ∧
    risk_engine.make_driver_age_band 25 = "25_34" ∧
    risk_engine.make_driver_age_band 35 = "35_44" ∧
    risk_engine.make_driver_age_band 45 = "45_59" ∧
    risk_engine.make_driver_age_band 60 = "60+" := by
  refine ⟨fun a h1 h2 => ?_, ?_, ?_, ?_, ?_⟩
  · unfold risk_engine.make_driver_age_band
    split_ifs with g1 g2 g3 g4
    · exact ⟨iff_of_true rfl g1,
        iff_of_false (by decide) (by rintro ⟨hx, -⟩; linarith),
        iff_of_false (by decide) (by rintro ⟨hx, -⟩; linarith),
        iff_of_false (by decide) (by rintro ⟨hx, -⟩; linarith),
        iff_of_false (by decide) (by intro hx; linarith)⟩
    · exact ⟨iff_of_false (by decide) (by intro hx; linarith),
        iff_of_true rfl ⟨by linarith, g2⟩,
        iff_of_false (by decide) (by rintro ⟨hx, -⟩; linarith),
        iff_of_false (by decide) (by rintro ⟨hx, -⟩; linarith),
        iff_of_false (by decide) (by intro hx; linarith)⟩
    · exact ⟨iff_of_false (by decide) (by intro hx; linarith),
        iff_of_false (by decide) (by rintro ⟨-, hx⟩; linarith),
        iff_of_true rfl ⟨by linarith, g3⟩,
        iff_of_false (by decide) (by rintro ⟨hx, -⟩; linarith),
        iff_of_false (by decide) (by intro hx; linarith)⟩
    · exact ⟨iff_of_false (by decide) (by intro hx; linarith),
        iff_of_false (by decide) (by rintro ⟨-, hx⟩; linarith),
        iff_of_false (by decide) (by rintro ⟨-, hx⟩; linarith),
        iff_of_true rfl ⟨by linarith, g4⟩,
        iff_of_false (by decide) (by intro hx; linarith)⟩
    · exact ⟨iff_of_false (by decide) (by intro hx; linarith),
        iff_of_false (by decide) (by rintro ⟨-, hx⟩; linarith),
        iff_of_false (by decide) (by rintro ⟨-, hx⟩; linarith),
        iff_of_false (by decide) (by rintro ⟨-, hx⟩; linarith),
        iff_of_true rfl (by linarith)⟩
  · norm_num [risk_engine.make_driver_age_band]
  · norm_num [risk_engine.make_driver_age_band]
  · norm_num [risk_engine.make_driver_age_band]
  · norm_num [risk_engine.make_driver_age_band]

/-- C7 witness: at the boundary age 25 the hypotheses hold and the band
characterization applies; in particular 25 satisfies the "25_34" interval. -/
theorem c7_driver_age_band_partition_witness :
    ((18 : ℚ) ≤ 25 ∧ (25 : ℚ) < 90) ∧
    ((risk_engine.make_driver_age_band 25 = "18_24" ↔ (25 : ℚ) < 25) ∧
     (risk_engine.make_driver_age_band 25 = "25_34" ↔
        (25 : ℚ) ≤ 25 ∧ (25 : ℚ) < 35) ∧
     (risk_engine.make_driver_age_band 25 = "35_44" ↔
        (35 : ℚ) ≤ 25 ∧ (25 : ℚ) < 45) ∧
     (risk_engine.make_driver_age_band 25 = "45_59" ↔
        (45 : ℚ) ≤ 25 ∧ (25 : ℚ) < 60) ∧
     (risk_engine.make_driver_age_band 25 = "60+" ↔ (60 : ℚ) ≤ 25)) :=
  ⟨⟨by norm_num, by norm_num⟩,
    c7_driver_age_band_partition.1 25 (by norm_num) (by norm_num)⟩

/-- C1 counterexample: with EBM probability 0.18 and NGBoost probability
0.05, the displayed label is MEDIUM while the threshold rule applied to the
final pricing probability (0.05) gives LOW — the label is not a function of
the pricing probability. -/
theorem c1_counterexample :
    risk_engine.resField "risk_label"
        (risk_engine.calculate_risk 0.18 0.05 true risk_engine.examplePolicy) =
      some (PyVal.str "MEDIUM") ∧
    risk_engine.resField "pricing_probability"
        (risk_engine.calculate_risk 0.18 0.05 true risk_engine.examplePolicy) =
      some (PyVal.num 0.05) ∧
    risk_engine.riskLabelOf 0.05 = "LOW" ∧
    "MEDIUM" ≠ "LOW" := by
  have hcalc : risk_engine.calculate_risk 0.18 0.05 true risk_engine.examplePolicy
      = Except.ok (risk_engine.mkRiskResult 0.18 0.05 35 8 45000 0 0) := rfl
  have hesc := risk_engine.mkRiskResult_of_escalate (e := 0.18) 0.05 35 8 45000 0 0
    (by norm_num [risk_engine.EBM_ESCALATE_THRESHOLD])
  have hlab : risk_engine.riskLabelOf 0.18 = "MEDIUM" := by
    norm_num [risk_engine.riskLabelOf, risk_engine.EBM_HIGH_THRESHOLD,
      risk_engine.EBM_ESCALATE_THRESHOLD]
  have hp : pyRound 4 (0.05 : ℚ) = 0.05 := pyRound_exact (a := 500) (by norm_num)
  refine ⟨?_, ?_, ?_, by decide⟩
  · rw [hcalc, risk_engine.resField, hesc, hlab]
    rfl
  · rw [hcalc, risk_engine.resField, hesc]
    simp only [hp]
    rfl
  · norm_num [risk_engine.riskLabelOf, risk_engine.EBM_HIGH_THRESHOLD,
      risk_engine.EBM_ESCALATE_THRESHOLD]

/-- C1 (amended): in `calculate_risk` the displayed risk label is the fixed
two-threshold rule applied to the primary (EBM) probability — not to the
final pricing probability. -/
theorem c1_label_from_primary :
    ∀ (e n : ℚ) (fp : Bool) (p : risk_engine.Policy) (d : List (String × PyVal)),
      risk_engine.calculate_risk e n fp p = Except.ok d →
      d.lookup "risk_label" = some (PyVal.str (risk_engine.riskLabelOf e)) := by
  intro e n fp p d h
  obtain ⟨age, vAge, -, -, -, rfl⟩ := risk_engine.calculate_risk_ok_inv h
  rfl

/-- C1 witness: the amended label rule evaluated on a concrete successful
run. -/
theorem c1_label_from_primary_witness :
    risk_engine.calculate_risk 0.18 0.05 true risk_engine.examplePolicy =
      Except.ok (risk_engine.mkRiskResult 0.18 0.05 35 8 45000 0 0) ∧
    (risk_engine.mkRiskResult 0.18 0.05 35 8 45000 0 0).lookup "risk_label" =
      some (PyVal.str (risk_engine.riskLabelOf 0.18)) :=
  ⟨rfl, c1_label_from_primary 0.18 0.05 true risk_engine.examplePolicy _ rfl⟩

/-- C2: the escalation threshold is 0.155; below it the result is
independent of the NGBoost oracle (the secondary model is never consulted)
and both NGBoost fields are null and the escalation flag false; at or above
it the NGBoost probability field is non-null (the rounded secondary
probability) and the escalation flag true. -/
theorem c2_escalation_gate :
    risk_engine.EBM_ESCALATE_THRESHOLD = 0.155 ∧
    ∀ (e n : ℚ) (fp : Bool) (p : risk_engine.Policy),
      (e < risk_engine.EBM_ESCALATE_THRESHOLD →
        risk_engine.calculate_risk e n fp p =
          risk_engine.calculate_risk e 0 fp p) ∧
      ∀ d, risk_engine.calculate_risk e n fp p = Except.ok d →
        (e < risk_engine.EBM_ESCALATE_THRESHOLD →
          d.lookup "escalate_to_ngboost" = some (PyVal.bool false) ∧
          d.lookup "ngboost_risk_probability" = some PyVal.none ∧
          d.lookup "ngboost_uncertainty" = some PyVal.none) ∧
        (risk_engine.EBM_ESCALATE_THRESHOLD ≤ e →
          d.lookup "escalate_to_ngboost" = some (PyVal.bool true) ∧
          d.lookup "ngboost_risk_probability" =
            some (PyVal.num (pyRound 4 n))) := by
  refine ⟨rfl, fun e n fp p => ⟨?_, ?_⟩⟩
  · intro h
    cases hda : p.driver_age with
    | none => rw [risk_engine.calculate_risk, hda, risk_engine.calculate_risk, hda]
    | some age =>
      cases hva : p.vehicle_age_years with
      | none =>
        rw [risk_engine.calculate_risk, hda, hva,
          risk_engine.calculate_risk, hda, hva]
      | some vAge =>
        cases fp with
        | false =>
          simp only [risk_engine.calculate_risk, hda, hva]
          rfl
        | true =>
          simp only [risk_engine.calculate_risk, hda, hva, if_true]
          rw [risk_engine.mkRiskResult_of_no_escalate n age vAge
              (p.base_premium.getD 45000) (p.ncb_percentage.getD 0)
              (p.other_discount.getD 0) h,
            risk_engine.mkRiskResult_of_no_escalate 0 age vAge
              (p.base_premium.getD 45000) (p.ncb_percentage.getD 0)
              (p.other_discount.getD 0) h]
  · intro d h
    obtain ⟨age, vAge, -, -, -, rfl⟩ := risk_engine.calculate_risk_ok_inv h
    constructor
    · intro hlt
      rw [risk_engine.mkRiskResult_of_no_escalate _ _ _ _ _ _ hlt]
      exact ⟨rfl, rfl, rfl⟩
    · intro hge
      rw [risk_engine.mkRiskResult_of_escalate _ _ _ _ _ _ hge]
      exact ⟨rfl, rfl⟩

/-- C2 witness: below the threshold (EBM probability 0.1) the result does
not depend on the NGBoost oracle; at 0.18 (above the threshold) a concrete
successful run carries escalation flag true and a non-null NGBoost
probability field. -/
theorem c2_escalation_gate_witness :
    ((0.1 : ℚ) < risk_engine.EBM_ESCALATE_THRESHOLD ∧
      risk_engine.calculate_risk 0.1 7 true risk_engine.examplePolicy =
        risk_engine.calculate_risk 0.1 0 true risk_engine.examplePolicy) ∧
    (risk_engine.EBM_ESCALATE_THRESHOLD ≤ (0.18 : ℚ) ∧
      (risk_engine.mkRiskResult 0.18 0.05 35 8 45000 0 0).lookup
          "escalate_to_ngboost" = some (PyVal.bool true) ∧
      (risk_engine.mkRiskResult 0.18 0.05 35 8 45000 0 0).lookup
          "ngboost_risk_probability" = some (PyVal.num (pyRound 4 0.05))) := by
  constructor
  · refine ⟨by norm_num [risk_engine.EBM_ESCALATE_THRESHOLD], ?_⟩
    exact (c2_escalation_gate.2 0.1 7 true risk_engine.examplePolicy).1
      (by norm_num [risk_engine.EBM_ESCALATE_THRESHOLD])
  · refine ⟨by norm_num [risk_engine.EBM_ESCALATE_THRESHOLD], ?_⟩
    exact ((c2_escalation_gate.2 0.18 0.05 true risk_engine.examplePolicy).2
      (risk_engine.mkRiskResult 0.18 0.05 35 8 45000 0 0) rfl).2
      (by norm_num [risk_engine.EBM_ESCALATE_THRESHOLD])

/-- C4: the result dictionary of `calculate_risk` carries the keys
`ebm_risk_probability`, `ngboost_risk_probability`, ... and does NOT
contain the keys `risk_probability`, `ebm_probability`,
`ngboost_probability` that the in-repo callers `app.py` / `app_flask.py`
(line 103) read — evaluated on a concrete successful run. -/
theorem c4_result_field_names :
    risk_engine.resultKeys
        (risk_engine.calculate_risk 0.1 0 true risk_engine.examplePolicy) =
      ["ebm_risk_probability", "risk_label", "escalate_to_ngboost",
       "ngboost_risk_probability", "ngboost_uncertainty", "driver_age_band",
       "vehicle_age_band", "pricing_model_used", "pricing_probability",
       "risk_percent_for_pricing", "premium_breakdown"] ∧
    "risk_probability" ∉ risk_engine.resultKeys
        (risk_engine.calculate_risk 0.1 0 true risk_engine.examplePolicy) ∧
    "ebm_probability" ∉ risk_engine.resultKeys
        (risk_engine.calculate_risk 0.1 0 true risk_engine.examplePolicy) ∧
    "ngboost_probability" ∉ risk_engine.resultKeys
        (risk_engine.calculate_risk 0.1 0 true risk_engine.examplePolicy) := by
  have hk : risk_engine.resultKeys
      (risk_engine.calculate_risk 0.1 0 true risk_engine.examplePolicy) =
    ["ebm_risk_probability", "risk_label", "escalate_to_ngboost",
     "ngboost_risk_probability", "ngboost_uncertainty", "driver_age_band",
     "vehicle_age_band", "pricing_model_used", "pricing_probability",
     "risk_percent_for_pricing", "premium_breakdown"] := rfl
  refine ⟨hk, ?_, ?_, ?_⟩ <;> rw [hk] <;> decide

/-- C5 counterexample: at a concrete input the premium breakdown's key set
is the 11-key list of the code and lacks the claimed keys `other_discount`,
`total_discount`, `net_premium_before_fees`, `admin_fee_rate_percent`,
`premium_before_vat` and `vat_rate_percent`. -/
theorem c5_counterexample :
    (premium_rules.calculate_final_premium 1000 10 0 0 0.0291 200 0.18).map
        Prod.fst =
      ["base_premium", "risk_percent", "risk_loading_percent",
       "risk_loading_amount", "ncb_percentage", "ncb_discount",
       "net_premium", "admin_fee", "policy_fee", "vat_amount",
       "total_payable"] ∧
    "other_discount" ∉ (premium_rules.calculate_final_premium
        1000 10 0 0 0.0291 200 0.18).map Prod.fst ∧
    "total_discount" ∉ (premium_rules.calculate_final_premium
        1000 10 0 0 0.0291 200 0.18).map Prod.fst ∧
    "net_premium_before_fees" ∉ (premium_rules.calculate_final_premium
        1000 10 0 0 0.0291 200 0.18).map Prod.fst ∧
    "admin_fee_rate_percent" ∉ (premium_rules.calculate_final_premium
        1000 10 0 0 0.0291 200 0.18).map Prod.fst ∧
    "premium_before_vat" ∉ (premium_rules.calculate_final_premium
        1000 10 0 0 0.0291 200 0.18).map Prod.fst ∧
    "vat_rate_percent" ∉ (premium_rules.calculate_final_premium
        1000 10 0 0 0.0291 200 0.18).map Prod.fst := by
  have hk : (premium_rules.calculate_final_premium
      1000 10 0 0 0.0291 200 0.18).map Prod.fst =
    ["base_premium", "risk_percent", "risk_loading_percent",
     "risk_loading_amount", "ncb_percentage", "ncb_discount",
     "net_premium", "admin_fee", "policy_fee", "vat_amount",
     "total_payable"] := rfl
  refine ⟨hk, ?_, ?_, ?_, ?_, ?_, ?_⟩ <;> rw [hk] <;> decide

/-- C5 (amended): for every input, the breakdown returned by
`premium_rules.calculate_final_premium` has exactly the keys base_premium,
risk_percent, risk_loading_percent, risk_loading_amount, ncb_percentage,
ncb_discount, net_premium, admin_fee, policy_fee, vat_amount,
total_payable (in this order), and every value is rounded to 2 decimals at
the point of output. -/
theorem c5_breakdown_fields :
    ∀ b r c o af pf vr : ℚ,
      (premium_rules.calculate_final_premium b r c o af pf vr).map Prod.fst =
        ["base_premium", "risk_percent", "risk_loading_percent",
         "risk_loading_amount", "ncb_percentage", "ncb_discount",
         "net_premium", "admin_fee", "policy_fee", "vat_amount",
         "total_payable"] ∧
      ∀ kv ∈ premium_rules.calculate_final_premium b r c o af pf vr,
        ∃ q : ℚ, kv.2 = pyRound 2 q := by
  intro b r c o af pf vr
  refine ⟨rfl, ?_⟩
  intro kv hkv
  simp only [premium_rules.calculate_final_premium, List.mem_cons,
    List.not_mem_nil, or_false] at hkv
  rcases hkv with rfl | rfl | rfl | rfl | rfl | rfl | rfl | rfl | rfl | rfl | rfl <;>
    exact ⟨_, rfl⟩

/-- C5 witness: the amended field property applied at a concrete input and
at its first field. -/
theorem c5_breakdown_fields_witness :
    (premium_rules.calculate_final_premium 4000 20 10 5 0.0291 200 0.18).map
        Prod.fst =
      ["base_premium", "risk_percent", "risk_loading_percent",
       "risk_loading_amount", "ncb_percentage", "ncb_discount",
       "net_premium", "admin_fee", "policy_fee", "vat_amount",
       "total_payable"] ∧
    ∃ q : ℚ, ("base_premium", pyRound 2 (4000 : ℚ)).2 = pyRound 2 q :=
  ⟨(c5_breakdown_fields 4000 20 10 5 0.0291 200 0.18).1,
    (c5_breakdown_fields 4000 20 10 5 0.0291 200 0.18).2
      ("base_premium", pyRound 2 (4000 : ℚ)) (List.mem_cons_self _ _)⟩

/-- C6: end-to-end scenario 2. With risk percent 54.36, base premium
140825, NCB 70 and no other discount: loading percent 50, loading amount
70412.5, NCB discount 98577.5, net premium 112660, and then admin fee
(2.91 percent of net), flat policy fee 200 and 18 percent VAT compound in
the order of the source, giving admin fee 3278.41, VAT 20904.91 and total
payable 137043.32. -/
theorem c6_scenario2 :
    premium_rules.get_risk_loading_percent (54.36 : ℚ) = 0.50 ∧
    premium_rules.calculate_final_premium 140825 54.36 70 0 0.0291 200 0.18 =
      [("base_premium", 140825),
       ("risk_percent", 54.36),
       ("risk_loading_percent", 50),
       ("risk_loading_amount", 70412.5),
       ("ncb_percentage", 70),
       ("ncb_discount", 98577.5),
       ("net_premium", 112660),
       ("admin_fee", 3278.41),
       ("policy_fee", 200),
       ("vat_amount", 20904.91),
       ("total_payable", 137043.32)] := by
  have hl : premium_rules.get_risk_loading_percent (54.36 : ℚ) = 0.50 := by
    norm_num [premium_rules.get_risk_loading_percent]
  have hnet : premium_rules.net_premium 140825 54.36 70 0 = 112660 := by
    simp only [premium_rules.net_premium, hl]
    rw [max_eq_left (by norm_num)]
    norm_num
  have e1 : pyRound 2 (140825 : ℚ) = 140825 :=
    pyRound_eval (f := 14082500) (by norm_num [Int.floor_eq_iff]) (by norm_num)
  have e2 : pyRound 2 (54.36 : ℚ) = 54.36 :=
    pyRound_eval (f := 5436) (by norm_num [Int.floor_eq_iff]) (by norm_num)
  have e3 : pyRound 2 ((0.50 : ℚ) * 100) = 50 :=
    pyRound_eval (f := 5000) (by norm_num [Int.floor_eq_iff]) (by norm_num)
  have e4 : pyRound 2 ((140825 : ℚ) * 0.50) = 70412.5 :=
    pyRound_eval (f := 7041250) (by norm_num [Int.floor_eq_iff]) (by norm_num)
  have e5 : pyRound 2 (70 : ℚ) = 70 :=
    pyRound_eval (f := 7000) (by norm_num [Int.floor_eq_iff]) (by norm_num)
  have e6 : pyRound 2 ((140825 : ℚ) * (70 / 100)) = 98577.5 :=
    pyRound_eval (f := 9857750) (by norm_num [Int.floor_eq_iff]) (by norm_num)
  have e7 : pyRound 2 (112660 : ℚ) = 112660 :=
    pyRound_eval (f := 11266000) (by norm_num [Int.floor_eq_iff]) (by norm_num)
  have e8 : pyRound 2 ((112660 : ℚ) * 0.0291) = 3278.41 :=
    pyRound_eval (f := 327840) (by norm_num [Int.floor_eq_iff]) (by norm_num)
  have e9 : pyRound 2 (200 : ℚ) = 200 :=
    pyRound_eval (f := 20000) (by norm_num [Int.floor_eq_iff]) (by norm_num)
  have e10 : pyRound 2 (((112660 : ℚ) + 112660 * 0.0291 + 200) * 0.18) =
      20904.91 :=
    pyRound_eval (f := 2090491) (by norm_num [Int.floor_eq_iff]) (by norm_num)
  have e11 : pyRound 2 ((112660 : ℚ) + 112660 * 0.0291 + 200 +
      ((112660 : ℚ) + 112660 * 0.0291 + 200) * 0.18) = 137043.32 :=
    pyRound_eval (f := 13704331) (by norm_num [Int.floor_eq_iff]) (by norm_num)
  refine ⟨hl, ?_⟩
  simp only [premium_rules.calculate_final_premium, hl, hnet]
  rw [e1, e2, e3, e4, e5, e6, e7, e8, e9, e10, e11]
